import Mathlib

/-!
Verification development for the voice-chat session pipeline of
`llm-voice-chat-curses`.

The embedding below follows the Python source files `src/chat.py`
(`ChatState`, `ChatManager`), `src/chat_ui.py` (the event loop's scroll
handlers and capture-trace glue) and `src/whisper.py` (the passive
voice-activity silence loop).  Conventions of the embedding:

* The transcript `chat_history` is a `List String`; the code appends the
  formatted strings `"You: " ++ m` and `"Assistant: " ++ r`, which we keep
  verbatim.
* The external engines (`LlamaChat.chat`, `Kokoro.create`,
  `Kokoro.create_with_blend`) are parameters of the transition functions,
  bundled in `Engines`.  A call that raises is modelled as `Except.error`;
  Kokoro's `(None, None)` result is `Except.ok none`.
* PCM sample values never influence the control logic, so a sample is an
  abstract `Int`; the float normalisation step in `whisper.stop_recording`
  rescales values but never changes the buffer's length or emptiness and is
  therefore dropped from the model.
* The UI callbacks (`status_callback`, `on_chat_updated`) and playback
  (`whisper.play_audio`) are observable effects, recorded in an `Event`
  trace.  `on_chat_updated` is modelled as always attached, as `start_chat`
  in `chat_ui.py` installs it before the loop runs.
* `scroll_offset` is a Python `int`, embedded as `Int` so that its
  non-negativity is a provable property rather than one forced by the type.
* The timing arithmetic of the passive silence loop uses floats
  `0.5, 3.0, 0.3, 0.0`; we scale to tenths of a second (`5, 30, 3, 0` as
  `Nat`).  All reachable accumulator values are small multiples of `0.1`
  and every comparison in the loop has margin at least `0.2`, far above
  float rounding error, so the scaled integer loop takes exactly the same
  branches as the float loop.
-/

/-- One observable effect emitted by the controller: a status-line message
(`status_callback`), a transcript-updated notification (`on_chat_updated`),
or a playback invocation (`whisper.play_audio`). -/
inductive Event where
  | status (msg : String)
  | chatUpdated
  | playback (audio : List Int) (rate : Nat)
deriving Repr, DecidableEq

/-- `Event.isPlayback e` holds exactly on playback invocations. -/
def Event.isPlayback : Event → Bool
  | .playback _ _ => true
  | _ => false

/-- Embedding of the `ChatState` dataclass of `src/chat.py`. -/
structure ChatState where
  chat_history : List String
  scroll_offset : Int
  recording_stream : Option Nat
  recording_frames : Option (List (List Int))
  recording_pyaudio : Option Nat
  last_user_message : Option String
  processing : Bool
  is_ptt_mode : Bool
  sample_rate : Option Nat
deriving Repr, DecidableEq

/-- The state built in `ChatManager.__init__`. -/
def initState : ChatState where
  chat_history := []
  scroll_offset := 0
  recording_stream := none
  recording_frames := none
  recording_pyaudio := none
  last_user_message := none
  processing := false
  is_ptt_mode := true
  sample_rate := none

/-- The external engines, as the controller sees them.  `llmChat` embeds
`self.llm.chat`, `ttsCreate` embeds `self.tts.create`, `ttsCreateBlend`
embeds `self.tts.create_with_blend` (its `Nat` argument is the raw
`Blend Ratio` percentage; the code divides by 100 at the call boundary).
`Except.error` models a raised exception, `Except.ok none` models the
`(None, None)` result. -/
structure Engines where
  llmChat : String → Except String String
  ttsCreate : String → Option String → Except String (Option (List Int × Nat))
  ttsCreateBlend : String → Option String → Option String → Nat →
    Except String (Option (List Int × Nat))

/-- The `selected_settings` fields read by `process_voice_input`.  The
Python code reads them with `dict.get`, which can return `None`, hence the
`Option`s; `blendRatio` carries the `settings.get("Blend Ratio", 50)`
result. -/
structure Settings where
  ttsVoice : Option String
  voice1 : Option String
  voice2 : Option String
  blendRatio : Nat

/-- Result of a controller operation: the returned boolean, the state
after the call, and the trace of observable effects. -/
structure StepResult where
  ok : Bool
  state : ChatState
  events : List Event
deriving Repr

/-- Python truthiness test `not x` for an `Optional[str]`: true on `None`
and on the empty string. -/
def pyFalsy : Option String → Bool
  | none => true
  | some t => t.isEmpty

/-- The voice-selection branch of `process_voice_input` (chat.py lines
112-131): blend when `settings.get("TTS Voice")` is the sentinel
`"[ Blend Voices ]"`, single voice otherwise. -/
def selectSynthesis (eng : Engines) (st : Settings) (text : String) :
    Except String (Option (List Int × Nat)) :=
  if st.ttsVoice = some "[ Blend Voices ]" then
    eng.ttsCreateBlend text st.voice1 st.voice2 st.blendRatio
  else
    eng.ttsCreate text st.ttsVoice

/-- Embedding of `ChatManager.process_voice_input` (chat.py lines 89-144).
Rejects falsy input; records `last_user_message`; appends the user turn and
notifies; sets `processing`; calls generation; on success appends the
assistant turn, notifies, and (still processing) synthesizes and plays;
any engine exception is caught, `processing` is cleared and `False`
returned; on the normal path `processing` is cleared and `True` returned. -/
def process_voice_input (eng : Engines) (st : Settings) (user_message : String)
    (s : ChatState) : StepResult :=
  if user_message.isEmpty then ⟨false, s, []⟩
  else
    let s2 : ChatState :=
      { s with last_user_message := some user_message
               chat_history := s.chat_history ++ ["You: " ++ user_message]
               processing := true }
    let ev0 : List Event := [Event.chatUpdated, Event.status "Thinking..."]
    match eng.llmChat user_message with
    | .error e =>
        ⟨false, { s2 with processing := false },
          ev0 ++ [Event.status ("Error processing input: " ++ e)]⟩
    | .ok assistant_message =>
        let s3 : ChatState :=
          { s2 with chat_history :=
              s2.chat_history ++ ["Assistant: " ++ assistant_message] }
        let ev1 : List Event := ev0 ++ [Event.chatUpdated]
        if s3.processing then
          let ev2 : List Event := ev1 ++ [Event.status "Synthesizing speech..."]
          match selectSynthesis eng st assistant_message with
          | .error e =>
              ⟨false, { s3 with processing := false },
                ev2 ++ [Event.status ("Error processing input: " ++ e)]⟩
          | .ok none =>
              ⟨true, { s3 with processing := false },
                ev2 ++ [Event.status "Ready to chat!"]⟩
          | .ok (some (audio, rate)) =>
              let ev3 : List Event :=
                if s3.processing then
                  ev2 ++ [Event.status "Playing response...",
                          Event.playback audio rate]
                else ev2
              ⟨true, { s3 with processing := false },
                ev3 ++ [Event.status "Ready to chat!"]⟩
        else
          ⟨true, { s3 with processing := false },
            ev1 ++ [Event.status "Ready to chat!"]⟩

/-- Embedding of `ChatManager.start_recording` (chat.py lines 146-162).
`devOk` stands for `whisper.record_audio` succeeding; on success the model
returns the fresh stream/pyaudio handles (opaque `1`), an empty frame list
and the default 16000 Hz rate. -/
def start_recording (devOk : Bool) (s : ChatState) :
    Bool × ChatState × List Event :=
  if s.recording_stream.isSome || s.processing then (false, s, [])
  else if devOk then
    (true,
     { s with recording_stream := some 1
              recording_frames := some []
              recording_pyaudio := some 1
              sample_rate := some 16000 },
     [])
  else
    (false, s, [Event.status "Error: Could not start recording"])

/-- Embedding of `whisper.stop_recording` (whisper.py lines 55-80): `None`
when the stream or pyaudio handle is `None` or no frames were recorded,
otherwise the concatenation of the frames (the float re-normalisation is
dropped: sample values are abstract). -/
def whisper_stop_recording (stream : Option Nat) (frames : List (List Int))
    (p : Option Nat) : Option (List Int) :=
  if stream.isNone || p.isNone then none
  else if frames.isEmpty then none
  else some frames.flatten

/-- Embedding of `ChatManager.stop_recording` (chat.py lines 164-185):
no-op returning `none` when no capture is active; otherwise stops the
stream via `whisper.stop_recording`, clears all four recording fields
unconditionally, and returns `(audio, sample_rate)` when the buffer is
non-empty, else `none`. -/
def stop_recording (s : ChatState) :
    Option (List Int × Option Nat) × ChatState × List Event :=
  if s.recording_stream.isNone then (none, s, [])
  else
    let audio := whisper_stop_recording s.recording_stream
      (s.recording_frames.getD []) s.recording_pyaudio
    let rate := s.sample_rate
    let s2 : ChatState :=
      { s with recording_stream := none
               recording_frames := none
               recording_pyaudio := none
               sample_rate := none }
    match audio with
    | some a =>
        if 0 < a.length then (some (a, rate), s2, [Event.status "Processing audio..."])
        else (none, s2, [Event.status "Processing audio..."])
    | none => (none, s2, [Event.status "Processing audio..."])

/-- Embedding of `ChatManager.clear_history` (chat.py lines 187-193). -/
def clear_history (s : ChatState) : ChatState × List Event :=
  ({ s with chat_history := [], scroll_offset := 0 },
   [Event.status "Chat history cleared!", Event.chatUpdated])

/-- Embedding of `ChatManager.toggle_ptt_mode` (chat.py lines 195-199). -/
def toggle_ptt_mode (s : ChatState) : ChatState × List Event :=
  let s2 : ChatState := { s with is_ptt_mode := !s.is_ptt_mode }
  (s2,
   [Event.status ("Switched to "
      ++ (if s2.is_ptt_mode then "Push-to-Talk" else "Passive")
      ++ " mode")])

/-- Embedding of `ChatManager.stop_processing` (chat.py lines 201-205). -/
def stop_processing (s : ChatState) : ChatState × List Event :=
  if s.processing then
    ({ s with processing := false }, [Event.status "Processing stopped!"])
  else (s, [])

/-- Embedding of `ChatManager.redo_last_message` (chat.py lines 207-216):
fails on falsy `last_user_message` or while processing; otherwise replaces
the history by `chat_history[:-2]` when it has at least two entries, else
by `[]`; notifies; and re-invokes `process_voice_input` on
`last_user_message`. -/
def redo_last_message (eng : Engines) (st : Settings) (s : ChatState) :
    StepResult :=
  if pyFalsy s.last_user_message || s.processing then ⟨false, s, []⟩
  else
    let s2 : ChatState :=
      { s with chat_history :=
          if 2 ≤ s.chat_history.length then
            s.chat_history.take (s.chat_history.length - 2)
          else [] }
    let r := process_voice_input eng st (s.last_user_message.getD "") s2
    ⟨r.ok, r.state, Event.chatUpdated :: r.events⟩

/-- The KEY_UP handler of the chat loop (chat_ui.py lines 94-97):
increments `scroll_offset` only while it is below `2 * len(chat_history)`. -/
def scroll_up (s : ChatState) : ChatState :=
  if s.scroll_offset < (s.chat_history.length : Int) * 2 then
    { s with scroll_offset := s.scroll_offset + 1 }
  else s

/-- The KEY_DOWN handler of the chat loop (chat_ui.py lines 99-102):
decrements `scroll_offset` only while it is positive. -/
def scroll_down (s : ChatState) : ChatState :=
  if 0 < s.scroll_offset then { s with scroll_offset := s.scroll_offset - 1 }
  else s

/-- One top-level controller operation, as dispatched by the event loop in
`chat_ui.py`.  `submit` is `process_voice_input` on an already-transcribed
text; `startRec`/`stopRec` are the PTT space-key handlers; `scrollUp` /
`scrollDown` the arrow-key handlers. -/
inductive Op where
  | submit (eng : Engines) (st : Settings) (m : String)
  | redo (eng : Engines) (st : Settings)
  | clear
  | toggle
  | stopProc
  | startRec (devOk : Bool)
  | stopRec
  | scrollUp
  | scrollDown

/-- State transition of a single operation (return values and events
discarded). -/
def Op.apply : Op → ChatState → ChatState
  | .submit eng st m, s => (process_voice_input eng st m s).state
  | .redo eng st, s => (redo_last_message eng st s).state
  | .clear, s => (clear_history s).1
  | .toggle, s => (toggle_ptt_mode s).1
  | .stopProc, s => (stop_processing s).1
  | .startRec d, s => (start_recording d s).2.1
  | .stopRec, s => (stop_recording s).2.1
  | .scrollUp, s => scroll_up s
  | .scrollDown, s => scroll_down s

/-- Run a sequence of operations from a state. -/
def runOps (ops : List Op) (s : ChatState) : ChatState :=
  ops.foldl (fun t op => op.apply t) s

/-- `Op.genTotal op` says the operation's generation engine never raises
(vacuously true for operations that do not call generation). -/
def Op.genTotal : Op → Prop
  | .submit eng _ _ => ∀ m, (eng.llmChat m).isOk = true
  | .redo eng _ => ∀ m, (eng.llmChat m).isOk = true
  | _ => True

/-- A concrete engine bundle whose generation always succeeds and whose
synthesis returns no audio. -/
def engOk : Engines where
  llmChat := fun m => .ok ("reply to " ++ m)
  ttsCreate := fun _ _ => .ok none
  ttsCreateBlend := fun _ _ _ _ => .ok none

/-- A concrete engine bundle whose generation always raises. -/
def engFail : Engines where
  llmChat := fun _ => .error "boom"
  ttsCreate := fun _ _ => .ok none
  ttsCreateBlend := fun _ _ _ _ => .ok none

/-- Concrete single-voice settings. -/
def defSettings : Settings where
  ttsVoice := some "af_bella"
  voice1 := none
  voice2 := none
  blendRatio := 50

/-! ## Capture traces (claim about start/stop sequences)

`CapOp` restricts `Op` to the two capture operations, instrumented with a
ghost count of currently-open captures: a successful `start_recording`
opens one, a `stop_recording` with a capture active closes it. -/

/-- A capture-surface operation. -/
inductive CapOp where
  | start (devOk : Bool)
  | stop

/-- Instrumented step: the state plus the number of open captures. -/
def capStep : ChatState × Nat → CapOp → ChatState × Nat
  | (s, n), .start d =>
      let r := start_recording d s
      (r.2.1, if r.1 then n + 1 else n)
  | (s, n), .stop =>
      let r := stop_recording s
      (r.2.1, if s.recording_stream.isSome then n - 1 else n)

/-- Run a capture trace from the initial state with zero open captures. -/
def capRun (ops : List CapOp) : ChatState × Nat :=
  ops.foldl capStep (initState, 0)

/-! ## Passive-mode silence loop (whisper.py lines 169-180)

After speech onset, the loop polls every `check_interval = 0.5` s; each
poll classifies the most recent window: RMS below the threshold is
"silent" (`true`), otherwise "loud" (`false`).  A silent window adds
`0.5` s to `accumulated_silence_time`; a loud one sets it to `0.3` s; the
loop breaks once the accumulator reaches
`silence_duration_required = 3.0` s.  Times are scaled to tenths of a
second (`5`, `3`, `30`). -/

/-- One accumulator update of the silence loop: `silent` windows add the
0.5 s check interval, others reset the accumulator to 0.3 s. -/
def silenceStep (acc : Nat) (silent : Bool) : Nat :=
  if silent then acc + 5 else 3

/-- The accumulator value after folding `silenceStep` over a window
sequence, starting from `0.0` as the code does. -/
def silenceAccAfter (ws : List Bool) : Nat :=
  ws.foldl silenceStep 0

/-- The silence loop itself, run over the (possibly unbounded, here
truncated) sequence of future window classifications: returns the number
of polls consumed before the loop breaks, or `none` when it never breaks
within the given windows. -/
def silenceLoopAux : List Bool → Nat → Option Nat
  | [], _ => none
  | w :: ws, acc =>
      let acc2 := silenceStep acc w
      if 30 ≤ acc2 then some 1
      else (silenceLoopAux ws acc2).map (fun k => k + 1)

/-- Polls consumed by the silence loop from its initial accumulator. -/
def silenceWindowsConsumed (ws : List Bool) : Option Nat :=
  silenceLoopAux ws 0

/-- Modelled from the spec's wording of speech-end detection: stop at the
first poll at which a full `3.0 / 0.5 = 6` consecutive silent windows have
elapsed; `run` tracks the current streak of consecutive silent windows. -/
def silentRunStopAux : List Bool → Nat → Option Nat
  | [], _ => none
  | w :: ws, run =>
      let run2 := if w then run + 1 else 0
      if 6 ≤ run2 then some 1
      else (silentRunStopAux ws run2).map (fun k => k + 1)

/-! ## Helper lemmas about `process_voice_input` -/

/-- Full characterization of the state after `process_voice_input`: falsy
input leaves the state untouched; a generation error leaves exactly the
user turn appended; otherwise both turns are appended — in every case
`processing` ends false and no other field moves. -/
theorem process_voice_input_state_char (eng : Engines) (st : Settings)
    (m : String) (s : ChatState) :
    (process_voice_input eng st m s).state =
      if m.isEmpty then s
      else
        match eng.llmChat m with
        | .error _ =>
            { s with last_user_message := some m
                     chat_history := s.chat_history ++ ["You: " ++ m]
                     processing := false }
        | .ok r =>
            { s with last_user_message := some m
                     chat_history :=
                       s.chat_history ++ ["You: " ++ m, "Assistant: " ++ r]
                     processing := false } := by
  unfold process_voice_input
  cases hmE : m.isEmpty with
  | true => simp
  | false =>
    cases hg : eng.llmChat m with
    | error e => simp
    | ok r =>
      cases hs : selectSynthesis eng st r with
      | error e => simp [hs]
      | ok o =>
        cases o with
        | none => simp [hs]
        | some p => simp [hs]

/-- The returned boolean of `process_voice_input`: true exactly when the
input was accepted and neither generation nor synthesis raised. -/
theorem process_voice_input_ok_char (eng : Engines) (st : Settings)
    (m : String) (s : ChatState) :
    (process_voice_input eng st m s).ok =
      (!m.isEmpty &&
        (match eng.llmChat m with
         | .error _ => false
         | .ok r => (selectSynthesis eng st r).isOk)) := by
  unfold process_voice_input
  cases hmE : m.isEmpty with
  | true => simp
  | false =>
    cases hg : eng.llmChat m with
    | error e => simp
    | ok r =>
      cases hs : selectSynthesis eng st r with
      | error e => simp [hs, Except.isOk, Except.toBool]
      | ok o =>
        cases o with
        | none => simp [hs, Except.isOk, Except.toBool]
        | some p => simp [hs, Except.isOk, Except.toBool]

/-- Event trace of `process_voice_input` when generation succeeds and
synthesis returns `(None, None)`: the two transcript notifications and the
three status messages, no playback. -/
theorem process_voice_input_events_synth_none (eng : Engines) (st : Settings)
    (m r : String) (s : ChatState) (hm : m.isEmpty = false)
    (hg : eng.llmChat m = .ok r) (hs : selectSynthesis eng st r = .ok none) :
    (process_voice_input eng st m s).events =
      [Event.chatUpdated, Event.status "Thinking...", Event.chatUpdated,
       Event.status "Synthesizing speech...", Event.status "Ready to chat!"] := by
  unfold process_voice_input
  simp [hm, hg, hs]

/-! ## Claim theorems: submission pipeline (C6, C7, C10) -/

/-- C6: for every input text `t`, if `submit_user_text(t)` is called and
the generation engine raises, the call returns false, `processing` ends
false, and the transcript is exactly the old transcript plus the user turn
for `t` (so its last entry is that user turn, no assistant turn was
appended, and nothing already appended was rolled back). -/
theorem submit_generation_error_leaves_user_turn
    (eng : Engines) (st : Settings) (m e : String) (s : ChatState)
    (hm : m.isEmpty = false) (hg : eng.llmChat m = .error e) :
    (process_voice_input eng st m s).ok = false ∧
    (process_voice_input eng st m s).state.processing = false ∧
    (process_voice_input eng st m s).state.chat_history =
      s.chat_history ++ ["You: " ++ m] := by
  rw [process_voice_input_ok_char, process_voice_input_state_char]
  simp [hm, hg]

/-- Witness for C6 at a concrete failing engine. -/
theorem submit_generation_error_leaves_user_turn_witness :
    (process_voice_input engFail defSettings "hi" initState).ok = false ∧
    (process_voice_input engFail defSettings "hi" initState).state.processing = false ∧
    (process_voice_input engFail defSettings "hi" initState).state.chat_history =
      initState.chat_history ++ ["You: " ++ "hi"] :=
  submit_generation_error_leaves_user_turn engFail defSettings "hi" "boom"
    initState (by decide) rfl

/-- C7: for every non-empty input, when generation succeeds and the
synthesis engine returns `(None, None)`, the call appends both turns,
never invokes playback, ends with `processing` false, returns true, and
its final status message is the readiness message, not an error. -/
theorem submit_synthesis_none_soft_failure
    (eng : Engines) (st : Settings) (m r : String) (s : ChatState)
    (hm : m.isEmpty = false) (hg : eng.llmChat m = .ok r)
    (hs : selectSynthesis eng st r = .ok none) :
    (process_voice_input eng st m s).ok = true ∧
    (process_voice_input eng st m s).state.chat_history =
      s.chat_history ++ ["You: " ++ m, "Assistant: " ++ r] ∧
    (process_voice_input eng st m s).state.processing = false ∧
    (∀ ev ∈ (process_voice_input eng st m s).events, ev.isPlayback = false) ∧
    ((process_voice_input eng st m s).events).getLast? =
      some (Event.status "Ready to chat!") := by
  rw [process_voice_input_ok_char, process_voice_input_state_char,
      process_voice_input_events_synth_none eng st m r s hm hg hs]
  simp [hm, hg, hs, Except.isOk, Except.toBool, Event.isPlayback]

/-- Witness for C7 at a concrete engine whose synthesis yields no audio. -/
theorem submit_synthesis_none_soft_failure_witness :
    (process_voice_input engOk defSettings "hi" initState).ok = true ∧
    (process_voice_input engOk defSettings "hi" initState).state.chat_history =
      initState.chat_history ++ ["You: " ++ "hi", "Assistant: " ++ "reply to hi"] ∧
    (process_voice_input engOk defSettings "hi" initState).state.processing = false ∧
    (∀ ev ∈ (process_voice_input engOk defSettings "hi" initState).events,
      ev.isPlayback = false) ∧
    ((process_voice_input engOk defSettings "hi" initState).events).getLast? =
      some (Event.status "Ready to chat!") :=
  submit_synthesis_none_soft_failure engOk defSettings "hi" "reply to hi"
    initState (by decide) rfl rfl

/-- C10: for every non-empty input text `t` and any engine behaviour
(success or failure of any stage), `submit_user_text(t)` leaves
`lastUserTurn` equal to `t` — in particular it is non-falsy afterwards, so
`redo_last`'s guard is enabled with exactly the submitted text. -/
theorem submit_records_last_user_message
    (eng : Engines) (st : Settings) (m : String) (s : ChatState)
    (hm : m.isEmpty = false) :
    (process_voice_input eng st m s).state.last_user_message = some m ∧
    pyFalsy (process_voice_input eng st m s).state.last_user_message = false := by
  rw [process_voice_input_state_char]
  cases hg : eng.llmChat m <;> simp [hm, hg, pyFalsy]

/-- Witness for C10, applied at a failing engine (the harder case: the
text is retained even though generation raised). -/
theorem submit_records_last_user_message_witness :
    (process_voice_input engFail defSettings "hi" initState).state.last_user_message
      = some "hi" ∧
    pyFalsy (process_voice_input engFail defSettings "hi"
      initState).state.last_user_message = false :=
  submit_records_last_user_message engFail defSettings "hi" initState (by decide)

/-! ## Field-preservation helper lemmas -/

/-- `process_voice_input` never touches the scroll offset nor the four
recording fields. -/
theorem process_voice_input_untouched_fields (eng : Engines) (st : Settings)
    (m : String) (s : ChatState) :
    (process_voice_input eng st m s).state.scroll_offset = s.scroll_offset ∧
    (process_voice_input eng st m s).state.recording_stream = s.recording_stream ∧
    (process_voice_input eng st m s).state.recording_frames = s.recording_frames ∧
    (process_voice_input eng st m s).state.recording_pyaudio = s.recording_pyaudio ∧
    (process_voice_input eng st m s).state.sample_rate = s.sample_rate := by
  rw [process_voice_input_state_char]
  split
  · exact ⟨rfl, rfl, rfl, rfl, rfl⟩
  · split <;> exact ⟨rfl, rfl, rfl, rfl, rfl⟩

/-- The state after `redo_last_message`: unchanged when the guard fires,
otherwise the state of re-submitting `last_user_message` on the truncated
history. -/
theorem redo_last_message_state_char (eng : Engines) (st : Settings)
    (s : ChatState) :
    (redo_last_message eng st s).state =
      if (pyFalsy s.last_user_message || s.processing) = true then s
      else (process_voice_input eng st (s.last_user_message.getD "")
        { s with chat_history :=
            if 2 ≤ s.chat_history.length then
              s.chat_history.take (s.chat_history.length - 2)
            else [] }).state := by
  unfold redo_last_message
  split <;> simp_all

/-- `start_recording` leaves every non-recording field unchanged, and the
recording fields too when it fails. -/
theorem start_recording_untouched_fields (d : Bool) (s : ChatState) :
    (start_recording d s).2.1.chat_history = s.chat_history ∧
    (start_recording d s).2.1.scroll_offset = s.scroll_offset ∧
    (start_recording d s).2.1.processing = s.processing ∧
    (start_recording d s).2.1.last_user_message = s.last_user_message := by
  unfold start_recording
  split
  · exact ⟨rfl, rfl, rfl, rfl⟩
  · split <;> exact ⟨rfl, rfl, rfl, rfl⟩

/-- `stop_recording` leaves the transcript, scroll offset, `processing`
and `last_user_message` unchanged. -/
theorem stop_recording_untouched_fields (s : ChatState) :
    (stop_recording s).2.1.chat_history = s.chat_history ∧
    (stop_recording s).2.1.scroll_offset = s.scroll_offset ∧
    (stop_recording s).2.1.processing = s.processing ∧
    (stop_recording s).2.1.last_user_message = s.last_user_message := by
  unfold stop_recording
  split
  · exact ⟨rfl, rfl, rfl, rfl⟩
  · cases haudio : whisper_stop_recording s.recording_stream
      (s.recording_frames.getD []) s.recording_pyaudio with
    | none => simp [haudio]
    | some a => by_cases hl : 0 < a.length <;> simp [haudio, hl]

/-- Inversion of a failed Python truthiness test. -/
theorem pyFalsy_eq_false_iff (o : Option String) :
    pyFalsy o = false ↔ ∃ t, o = some t ∧ t.isEmpty = false := by
  cases o <;> simp [pyFalsy]

/-- Unfolding one operation of `runOps`. -/
theorem runOps_cons (op : Op) (ops : List Op) (s : ChatState) :
    runOps (op :: ops) s = runOps ops (op.apply s) := rfl

/-! ## Claim theorems: redo (C1) and mode toggle (C3) -/

/-- Counterexample to C1: reach a state whose transcript ends with an
unpaired user turn (a prior successful exchange followed by a submission
whose generation raised).  `redo_last` there drops the last TWO entries —
including the earlier assistant turn — not just the trailing user turn, so
the earlier turns are not left unchanged. -/
theorem redo_counterexample_drops_two_on_unpaired_tail :
    (runOps [Op.submit engOk defSettings "u1",
             Op.submit engFail defSettings "u2"] initState).chat_history =
      ["You: u1", "Assistant: reply to u1", "You: u2"] ∧
    (runOps [Op.submit engOk defSettings "u1",
             Op.submit engFail defSettings "u2"] initState).processing = false ∧
    (runOps [Op.submit engOk defSettings "u1",
             Op.submit engFail defSettings "u2"] initState).last_user_message =
      some "u2" ∧
    (redo_last_message engOk defSettings
      (runOps [Op.submit engOk defSettings "u1",
               Op.submit engFail defSettings "u2"] initState)).state.chat_history =
      ["You: u1", "You: u2", "Assistant: reply to u2"] ∧
    ¬ ("Assistant: reply to u1" ∈
        (redo_last_message engOk defSettings
          (runOps [Op.submit engOk defSettings "u1",
                   Op.submit engFail defSettings "u2"]
            initState)).state.chat_history) := by
  decide

/-- C1 amended: when `lastUserTurn` is a non-empty text `m`, `processing`
is false and generation replies `r`, `redo_last` drops the trailing TWO
transcript entries whenever at least two are present (regardless of
whether they form a user/assistant pair; it drops the single entry only
when the transcript has exactly one), then re-submits `m`, leaving the
truncated transcript extended by the new user and assistant turns. -/
theorem redo_truncates_two_then_resubmits
    (eng : Engines) (st : Settings) (s : ChatState) (m r : String)
    (hl : s.last_user_message = some m) (hm : m.isEmpty = false)
    (hp : s.processing = false) (hg : eng.llmChat m = .ok r) :
    (redo_last_message eng st s).state.chat_history =
      (if 2 ≤ s.chat_history.length then
         s.chat_history.take (s.chat_history.length - 2)
       else []) ++ ["You: " ++ m, "Assistant: " ++ r] := by
  rw [redo_last_message_state_char]
  rw [if_neg (by simp [hl, pyFalsy, hm, hp])]
  rw [process_voice_input_state_char]
  simp [hl, hm, hg]

/-- Witness for the amended C1 at a one-exchange transcript. -/
theorem redo_truncates_two_then_resubmits_witness :
    (redo_last_message engOk defSettings
      (runOps [Op.submit engOk defSettings "hello"] initState)).state.chat_history =
      (if 2 ≤ (runOps [Op.submit engOk defSettings "hello"]
                initState).chat_history.length then
         (runOps [Op.submit engOk defSettings "hello"]
           initState).chat_history.take
           ((runOps [Op.submit engOk defSettings "hello"]
             initState).chat_history.length - 2)
       else []) ++ ["You: " ++ "hello", "Assistant: " ++ "reply to hello"] :=
  redo_truncates_two_then_resubmits engOk defSettings
    (runOps [Op.submit engOk defSettings "hello"] initState)
    "hello" "reply to hello" (by decide) (by decide) (by decide) rfl

/-- Counterexample to C3: in a reachable state with a capture active,
`toggle_input_mode` still flips `inputMode` (the toggle is not
disallowed). -/
theorem toggle_counterexample_flips_while_capturing :
    (runOps [Op.startRec true] initState).recording_stream.isSome = true ∧
    (toggle_ptt_mode (runOps [Op.startRec true] initState)).1.is_ptt_mode ≠
      (runOps [Op.startRec true] initState).is_ptt_mode := by
  decide

/-- C3 amended: `toggle_input_mode` unconditionally flips `inputMode` —
even while processing or capturing — and reports a status message either
way. -/
theorem toggle_always_flips_and_reports (s : ChatState) :
    (toggle_ptt_mode s).1.is_ptt_mode = !s.is_ptt_mode ∧
    ∃ msg, (toggle_ptt_mode s).2 = [Event.status msg] :=
  ⟨rfl, ⟨_, rfl⟩⟩

/-! ## Claim theorems: transcript parity (C4) -/

/-- Every operation whose generation engine cannot raise preserves an even
transcript length. -/
theorem op_preserves_even_length (op : Op) (s : ChatState)
    (hop : op.genTotal) (h : s.chat_history.length % 2 = 0) :
    (op.apply s).chat_history.length % 2 = 0 := by
  cases op with
  | submit eng st m =>
      show (process_voice_input eng st m s).state.chat_history.length % 2 = 0
      rw [process_voice_input_state_char]
      cases hmE : m.isEmpty with
      | true => simpa using h
      | false =>
          cases hg : eng.llmChat m with
          | error e =>
              have := hop m
              rw [hg] at this
              simp [Except.isOk, Except.toBool] at this
          | ok r =>
              simp only [hmE, Bool.false_eq_true, if_false]
              simp [List.length_append]
              omega
  | redo eng st =>
      show (redo_last_message eng st s).state.chat_history.length % 2 = 0
      rw [redo_last_message_state_char]
      by_cases hguard : (pyFalsy s.last_user_message || s.processing) = true
      · rw [if_pos hguard]; exact h
      · rw [if_neg hguard]
        have hfal : pyFalsy s.last_user_message = false := by
          cases hpf : pyFalsy s.last_user_message <;> simp_all
        obtain ⟨t, ht, htne⟩ := (pyFalsy_eq_false_iff _).mp hfal
        rw [process_voice_input_state_char]
        rw [ht]
        simp only [Option.getD_some, htne, Bool.false_eq_true, if_false]
        have := hop t
        cases hg : eng.llmChat t with
        | error e =>
            rw [hg] at this
            simp [Except.isOk, Except.toBool] at this
        | ok r =>
            by_cases hlen : 2 ≤ s.chat_history.length
            · simp [hlen, List.length_append, List.length_take]
              omega
            · simp [hlen, List.length_append]
  | clear => show (clear_history s).1.chat_history.length % 2 = 0; simp [clear_history]
  | toggle => exact h
  | stopProc =>
      show (stop_processing s).1.chat_history.length % 2 = 0
      unfold stop_processing
      split <;> exact h
  | startRec d =>
      show (start_recording d s).2.1.chat_history.length % 2 = 0
      rw [(start_recording_untouched_fields d s).1]; exact h
  | stopRec =>
      show (stop_recording s).2.1.chat_history.length % 2 = 0
      rw [(stop_recording_untouched_fields s).1]; exact h
  | scrollUp =>
      show (scroll_up s).chat_history.length % 2 = 0
      unfold scroll_up; split <;> exact h
  | scrollDown =>
      show (scroll_down s).chat_history.length % 2 = 0
      unfold scroll_down; split <;> exact h

/-- Counterexample to C4: a single completed top-level `submit_user_text`
call whose generation raised returns with an odd transcript length (the
user turn stays, no assistant turn was appended), so evenness does not
hold after every complete operation. -/
theorem transcript_parity_counterexample :
    ¬ ((runOps [Op.submit engFail defSettings "hi"]
        initState).chat_history.length % 2 = 0) := by
  decide

/-- C4 amended: the transcript length is even after every complete
top-level operation provided no generation call raised along the way; a
submission whose generation raises leaves the length odd (the trailing
user turn is unpaired), as the error-handling section's own description of
EngineError implies. -/
theorem transcript_even_under_successful_generation
    (ops : List Op) (h : ∀ op ∈ ops, op.genTotal) :
    (runOps ops initState).chat_history.length % 2 = 0 := by
  suffices hkey : ∀ (l : List Op) (s : ChatState), (∀ op ∈ l, op.genTotal) →
      s.chat_history.length % 2 = 0 →
      (runOps l s).chat_history.length % 2 = 0 by
    exact hkey ops initState h rfl
  intro l
  induction l with
  | nil => intro s _ hs; exact hs
  | cons op l ih =>
      intro s hall hs
      rw [runOps_cons]
      exact ih (op.apply s) (fun o ho => hall o (List.mem_cons_of_mem _ ho))
        (op_preserves_even_length op s (hall op (List.mem_cons_self _ _)) hs)

/-- Witness for the amended C4: a successful submission followed by a redo
with a never-raising engine keeps the length even. -/
theorem transcript_even_under_successful_generation_witness :
    (runOps [Op.submit engOk defSettings "hi", Op.redo engOk defSettings]
      initState).chat_history.length % 2 = 0 :=
  transcript_even_under_successful_generation
    [Op.submit engOk defSettings "hi", Op.redo engOk defSettings]
    (by
      intro op hop
      simp only [List.mem_cons, List.not_mem_nil, or_false] at hop
      rcases hop with h | h <;> (subst h; intro m; rfl))

/-! ## Claim theorems: scroll offset bounds (C5) -/

/-- Every operation preserves a non-negative scroll offset. -/
theorem op_preserves_scroll_nonneg (op : Op) (s : ChatState)
    (h : 0 ≤ s.scroll_offset) : 0 ≤ (op.apply s).scroll_offset := by
  cases op with
  | submit eng st m =>
      show 0 ≤ (process_voice_input eng st m s).state.scroll_offset
      rw [(process_voice_input_untouched_fields eng st m s).1]; exact h
  | redo eng st =>
      show 0 ≤ (redo_last_message eng st s).state.scroll_offset
      rw [redo_last_message_state_char]
      split
      · exact h
      · rw [(process_voice_input_untouched_fields _ _ _ _).1]; exact h
  | clear =>
      show 0 ≤ (clear_history s).1.scroll_offset
      simp [clear_history]
  | toggle => exact h
  | stopProc =>
      show 0 ≤ (stop_processing s).1.scroll_offset
      unfold stop_processing; split <;> exact h
  | startRec d =>
      show 0 ≤ (start_recording d s).2.1.scroll_offset
      rw [(start_recording_untouched_fields d s).2.1]; exact h
  | stopRec =>
      show 0 ≤ (stop_recording s).2.1.scroll_offset
      rw [(stop_recording_untouched_fields s).2.1]; exact h
  | scrollUp =>
      show 0 ≤ (scroll_up s).scroll_offset
      unfold scroll_up; split
      · simp only []; omega
      · exact h
  | scrollDown =>
      show 0 ≤ (scroll_down s).scroll_offset
      unfold scroll_down; split
      · simp only []; omega
      · exact h

/-- Counterexample to C5: a successful exchange, four scroll-up events
(reaching the clamp `2 * len = 4`), then a redo whose generation raises:
`redo_last` truncates the transcript without re-clamping, so the final
reachable state has `scrollOffset = 4 > 2 * len(transcript) = 2`. -/
theorem scroll_bound_counterexample :
    ¬ ((runOps [Op.submit engOk defSettings "hi", Op.scrollUp, Op.scrollUp,
                Op.scrollUp, Op.scrollUp, Op.redo engFail defSettings]
         initState).scroll_offset ≤
       2 * ((runOps [Op.submit engOk defSettings "hi", Op.scrollUp, Op.scrollUp,
                     Op.scrollUp, Op.scrollUp, Op.redo engFail defSettings]
              initState).chat_history.length : Int)) := by
  decide

/-- C5 amended: `scrollOffset` is an integer that stays `≥ 0` in every
reachable state, and the scroll events themselves preserve the upper clamp
`scrollOffset ≤ 2 * len(transcript)`; but operations that shrink the
transcript without resetting the offset (`redo_last` followed by a failed
resubmission) can leave the offset above that upper bound. -/
theorem scroll_offset_nonneg_and_scroll_events_clamped :
    (∀ ops : List Op, 0 ≤ (runOps ops initState).scroll_offset) ∧
    (∀ s : ChatState,
      s.scroll_offset ≤ 2 * (s.chat_history.length : Int) →
      (scroll_up s).scroll_offset ≤
        2 * ((scroll_up s).chat_history.length : Int) ∧
      (scroll_down s).scroll_offset ≤
        2 * ((scroll_down s).chat_history.length : Int)) := by
  constructor
  · intro ops
    suffices hkey : ∀ (l : List Op) (s : ChatState), 0 ≤ s.scroll_offset →
        0 ≤ (runOps l s).scroll_offset by
      exact hkey ops initState (by decide)
    intro l
    induction l with
    | nil => intro s hs; exact hs
    | cons op l ih =>
        intro s hs
        rw [runOps_cons]
        exact ih (op.apply s) (op_preserves_scroll_nonneg op s hs)
  · intro s hs
    constructor
    · unfold scroll_up; split
      · simp only []; omega
      · exact hs
    · unfold scroll_down; split
      · simp only []; omega
      · exact hs

/-- Witness for the amended C5 at a concrete trace and state. -/
theorem scroll_offset_nonneg_and_scroll_events_clamped_witness :
    0 ≤ (runOps [Op.submit engOk defSettings "hi", Op.scrollUp]
          initState).scroll_offset ∧
    ((scroll_up initState).scroll_offset ≤
        2 * ((scroll_up initState).chat_history.length : Int) ∧
      (scroll_down initState).scroll_offset ≤
        2 * ((scroll_down initState).chat_history.length : Int)) :=
  ⟨scroll_offset_nonneg_and_scroll_events_clamped.1
      [Op.submit engOk defSettings "hi", Op.scrollUp],
   scroll_offset_nonneg_and_scroll_events_clamped.2 initState (by decide)⟩

/-! ## Claim theorems: capture surface (C8, C9) -/

/-- Invariant of capture traces: the capture handle is present iff exactly
one capture is open; never more than one is open; `processing` stays
false across pure capture traffic. -/
theorem capRun_invariant (ops : List CapOp) :
    ((capRun ops).1.recording_stream.isSome ↔ (capRun ops).2 = 1) ∧
    (capRun ops).2 ≤ 1 ∧ (capRun ops).1.processing = false := by
  suffices hkey : ∀ (l : List CapOp) (p : ChatState × Nat),
      (p.1.recording_stream.isSome ↔ p.2 = 1) → p.2 ≤ 1 →
      p.1.processing = false →
      ((l.foldl capStep p).1.recording_stream.isSome ↔ (l.foldl capStep p).2 = 1) ∧
      (l.foldl capStep p).2 ≤ 1 ∧ (l.foldl capStep p).1.processing = false by
    exact hkey ops (initState, 0) (by simp [initState]) (by omega) rfl
  intro l
  induction l with
  | nil => intro p h1 h2 h3; exact ⟨h1, h2, h3⟩
  | cons op l ih =>
      rintro ⟨s, n⟩ h1 h2 h3
      replace h1 : s.recording_stream.isSome = true ↔ n = 1 := h1
      replace h2 : n ≤ 1 := h2
      replace h3 : s.processing = false := h3
      rw [List.foldl_cons]
      cases op with
      | start d =>
          cases hstr : s.recording_stream with
          | some v =>
              have : capStep (s, n) (.start d) = (s, n) := by
                simp [capStep, start_recording, hstr]
              rw [this]
              exact ih (s, n) h1 h2 h3
          | none =>
              have hn : n = 0 := by
                simp [hstr] at h1; omega
              cases d with
              | true =>
                  have : capStep (s, n) (.start true) =
                      ({ s with recording_stream := some 1
                                recording_frames := some []
                                recording_pyaudio := some 1
                                sample_rate := some 16000 }, n + 1) := by
                    simp [capStep, start_recording, hstr, h3]
                  rw [this]
                  exact ih _ (by simp; omega) (by omega) h3
              | false =>
                  have : capStep (s, n) (.start false) = (s, n) := by
                    simp [capStep, start_recording, hstr, h3]
                  rw [this]
                  exact ih (s, n) h1 h2 h3
      | stop =>
          cases hstr : s.recording_stream with
          | some v =>
              have hn : n = 1 := h1.mp (by simp [hstr])
              have : capStep (s, n) .stop =
                  ({ s with recording_stream := none
                            recording_frames := none
                            recording_pyaudio := none
                            sample_rate := none }, n - 1) := by
                simp only [capStep, stop_recording, hstr]
                cases haudio : whisper_stop_recording (some v)
                    (s.recording_frames.getD []) s.recording_pyaudio with
                | none => simp [haudio]
                | some a => by_cases hl : 0 < a.length <;> simp [haudio, hl]
              rw [this]
              exact ih _ (by simp [hn]) (by omega) h3
          | none =>
              have : capStep (s, n) .stop = (s, n) := by
                simp [capStep, stop_recording, hstr]
              rw [this]
              exact ih (s, n) h1 h2 h3

/-- C8: `start_capture` fails and changes no state while a capture is
active or processing is set; from an Idle state with a working device it
returns true and installs the capture handle; and over every sequence of
`start_capture`/`stop_capture` calls the handle is present iff exactly one
capture is open. -/
theorem start_capture_exclusive :
    (∀ (d : Bool) (s : ChatState),
      s.recording_stream.isSome = true ∨ s.processing = true →
      start_recording d s = (false, s, [])) ∧
    (∀ s : ChatState, s.recording_stream = none → s.processing = false →
      (start_recording true s).1 = true ∧
      (start_recording true s).2.1.recording_stream = some 1) ∧
    (∀ ops : List CapOp,
      ((capRun ops).1.recording_stream.isSome ↔ (capRun ops).2 = 1) ∧
      (capRun ops).2 ≤ 1) := by
  refine ⟨?_, ?_, ?_⟩
  · intro d s h
    unfold start_recording
    rcases h with h | h <;> simp [h]
  · intro s h1 h2
    unfold start_recording
    simp [h1, h2]
  · intro ops
    exact ⟨(capRun_invariant ops).1, (capRun_invariant ops).2.1⟩

/-- Witness for C8: busy-state rejection after a successful start, the
successful start itself, and the trace invariant on a two-step trace. -/
theorem start_capture_exclusive_witness :
    start_recording true (runOps [Op.startRec true] initState) =
      (false, runOps [Op.startRec true] initState, []) ∧
    ((start_recording true initState).1 = true ∧
      (start_recording true initState).2.1.recording_stream = some 1) ∧
    (((capRun [CapOp.start true, CapOp.start false]).1.recording_stream.isSome ↔
        (capRun [CapOp.start true, CapOp.start false]).2 = 1) ∧
      (capRun [CapOp.start true, CapOp.start false]).2 ≤ 1) :=
  ⟨start_capture_exclusive.1 true (runOps [Op.startRec true] initState)
      (Or.inl (by decide)),
   start_capture_exclusive.2.1 initState rfl rfl,
   start_capture_exclusive.2.2 [CapOp.start true, CapOp.start false]⟩

/-- C9: `stop_capture` is a no-op returning `None` when no capture is
active; otherwise it unconditionally clears all four capture-handle fields
(so a subsequent `start_capture` is permitted) and returns the accumulated
buffer with its sample rate, or `None` when zero samples were captured. -/
theorem stop_capture_spec :
    (∀ s : ChatState, s.recording_stream = none →
      stop_recording s = (none, s, [])) ∧
    (∀ s : ChatState, s.recording_stream.isSome = true →
      (stop_recording s).2.1.recording_stream = none ∧
      (stop_recording s).2.1.recording_frames = none ∧
      (stop_recording s).2.1.recording_pyaudio = none ∧
      (stop_recording s).2.1.sample_rate = none) ∧
    (∀ (s : ChatState) (v p r : Nat) (fr : List (List Int)),
      s.recording_stream = some v → s.recording_frames = some fr →
      s.recording_pyaudio = some p → s.sample_rate = some r →
      (stop_recording s).1 =
        if fr.flatten.isEmpty then none else some (fr.flatten, some r)) := by
  refine ⟨?_, ?_, ?_⟩
  · intro s h
    unfold stop_recording
    simp [h]
  · intro s h
    unfold stop_recording
    rw [if_neg (by simp [Option.isNone_iff_eq_none]; rcases
      Option.isSome_iff_exists.mp h with ⟨v, hv⟩; simp [hv])]
    cases haudio : whisper_stop_recording s.recording_stream
        (s.recording_frames.getD []) s.recording_pyaudio with
    | none => simp [haudio]
    | some a =>
        by_cases hl : 0 < a.length <;> simp [haudio, hl]
  · intro s v p r fr hv hfr hp hr
    unfold stop_recording
    rw [if_neg (by simp [hv])]
    rw [hv, hfr, hp, hr]
    unfold whisper_stop_recording
    simp only [Option.isNone_some, Bool.or_self, Bool.false_eq_true, if_false,
      Option.getD_some]
    cases hemp : fr.isEmpty with
    | true =>
        have : fr = [] := by simpa [List.isEmpty_iff] using hemp
        subst this
        simp
    | false =>
        simp only [Bool.false_eq_true, if_false]
        cases hfl : fr.flatten with
        | nil => simp [hfl]
        | cons x xs => simp [hfl]

/-- Witness for C9: the no-op case at the initial state, and the
clearing/return behaviour right after a successful start (no frames were
captured, so the result is `None` and a new start is permitted). -/
theorem stop_capture_spec_witness :
    stop_recording initState = (none, initState, []) ∧
    ((stop_recording (start_recording true initState).2.1).2.1.recording_stream = none ∧
      (stop_recording (start_recording true initState).2.1).2.1.recording_frames = none ∧
      (stop_recording (start_recording true initState).2.1).2.1.recording_pyaudio = none ∧
      (stop_recording (start_recording true initState).2.1).2.1.sample_rate = none) ∧
    (stop_recording (start_recording true initState).2.1).1 =
      (if ([] : List (List Int)).flatten.isEmpty then none
       else some ((List.flatten ([] : List (List Int))), some 16000)) :=
  ⟨stop_capture_spec.1 initState rfl,
   stop_capture_spec.2.1 (start_recording true initState).2.1 (by decide),
   stop_capture_spec.2.2 (start_recording true initState).2.1 1 1 16000 []
     rfl rfl rfl rfl⟩

/-! ## Claim theorems: passive-mode silence detection (C2) -/

/-- Bridge between the code's accumulator loop and the consecutive-run
counter: the accumulator is always `5 * run` (no loud window seen since
the streak began at the start) or `3 + 5 * run` (streak began after a
reset), and under either form the break condition `30 ≤ acc` coincides
with a streak of six silent windows. -/
theorem silenceLoopAux_eq_silentRunStop (ws : List Bool) :
    ∀ acc run : Nat, acc = 5 * run ∨ acc = 3 + 5 * run →
      silenceLoopAux ws acc = silentRunStopAux ws run := by
  induction ws with
  | nil => intro acc run _; rfl
  | cons w ws ih =>
      intro acc run hrel
      unfold silenceLoopAux silentRunStopAux silenceStep
      cases w with
      | true =>
          simp only [if_true]
          have hstop : 30 ≤ acc + 5 ↔ 6 ≤ run + 1 := by
            rcases hrel with h | h <;> omega
          by_cases h30 : 30 ≤ acc + 5
          · rw [if_pos h30, if_pos (hstop.mp h30)]
          · rw [if_neg h30, if_neg (fun hc => h30 (hstop.mpr hc))]
            rw [ih (acc + 5) (run + 1) (by omega)]
      | false =>
          simp only [Bool.false_eq_true, if_false]
          rw [if_neg (by omega), if_neg (by omega)]
          rw [ih 3 0 (Or.inr (by omega))]

/-- Counterexample to C2: after a silent window followed by a loud one,
the code's accumulated silence time is 0.3 s (3 tenths), not zero — the
claim's "resets the accumulated silence to zero" does not match the code's
`accumulated_silence_time = 0.3` assignment. -/
theorem silence_reset_counterexample :
    silenceAccAfter [true, false] = 3 ∧ silenceAccAfter [true, false] ≠ 0 := by
  decide

/-- C2 amended: a loud (at-or-above-threshold) window resets the
accumulated silence to 0.3 s, not to zero; nevertheless, because
`0.3 + 5 × 0.5 < 3.0 ≤ 0.3 + 6 × 0.5` and `6 × 0.5 = 3.0`, the loop still
stops exactly at the end of the first streak of `6 = 3.0 s / 0.5 s`
consecutive sub-threshold windows, whether the streak starts at onset or
after a loud window — so the observable stopping behaviour matches the
full-configured-duration rule. -/
theorem silence_loop_stops_after_six_silent_windows :
    (∀ acc : Nat, silenceStep acc false = 3) ∧
    (∀ ws : List Bool, silenceWindowsConsumed ws = silentRunStopAux ws 0) := by
  refine ⟨fun acc => rfl, fun ws => ?_⟩
  unfold silenceWindowsConsumed
  exact silenceLoopAux_eq_silentRunStop ws 0 0 (Or.inl (by omega))
